import Mathlib

/-!
Verification of the CMM3-Coursework heat-pump simulator.

Shallow embedding of the Python sources:
  * `Simulator/formulae.py`   — thermodynamic formulae and the aggregate
    energy integrals (`calculate_total_energy_consumption`,
    `calculate_total_heat_transfer`, `calculate_total_heat_loss`);
  * `Simulator/simulation.py` — the explicit-Euler integrator `euler` with
    hysteresis pump control and the optional DHW draw;
  * `Simulator/DHW.py`        — the discretised DHW event profile update;
  * `Data/external_data_handling.py` — `ManufacturerCOP.get_cop_parameters`.

Python floats are idealised as rationals (reals for the tank-geometry cube
root).  Python list semantics that matter to the claims are modelled
explicitly: `list * int` is list repetition (`pyListMulNat`), `int(x)` is
truncation toward zero (`pyTrunc`), and slice assignment with negative
indices clamps as CPython/numpy do (`pySliceIdx`, `pySliceAdd`).
-/

/-- Python `xs * n` on a list: `n` concatenated copies of `xs`.  This is what
`time_values * 3600` computes in the aggregate energy integrals of
`formulae.py` when `time_values` is a Python list (as passed by
`Simulator.calculate_performance`). -/
def pyListMulNat (xs : List ℚ) : ℕ → List ℚ
  | 0 => []
  | n + 1 => xs ++ pyListMulNat xs n

/-- Python `int(x)` on a float: truncation toward zero. -/
def pyTrunc (q : ℚ) : Int :=
  if q < 0 then Int.ceil q else Int.floor q

/-- CPython/numpy slice-bound normalisation for an array of length `n`:
a negative index counts from the end (clamped below at 0), a non-negative
index is clamped above at `n`. -/
def pySliceIdx (n : ℕ) (i : Int) : ℕ :=
  if i < 0 then ((n : Int) + i).toNat else min i.toNat n

/-- Numpy `xs[a:b] += v`, element by element: positions in the normalised
half-open window `[a', b')` are incremented by `v`, all others kept. -/
def pySliceAdd (xs : List ℚ) (a b : Int) (v : ℚ) : List ℚ :=
  (List.range xs.length).map fun j =>
    if pySliceIdx xs.length a ≤ j ∧ j < pySliceIdx xs.length b
    then xs.getD j 0 + v else xs.getD j 0

/-! ## formulae.py -/

/-- Source `formulae.COP`: `a + (b / deltaT)`. -/
def COP (deltaT a b : ℚ) : ℚ := a + b / deltaT

/-- Per-run constants read from the YAML parameter store (`inputValues.value`
lookups made by `formulae.py` and `simulation.py`). -/
structure SimInputs where
  wall_area : ℚ
  wall_U_value : ℚ
  roof_area : ℚ
  roof_U_value : ℚ
  indoor_setpoint_temperature_K : ℚ
  overall_heat_transfer_coefficient : ℚ
  heat_transfer_area : ℚ
  fixed_condenser_temperature_K : ℚ
  heat_loss_coefficient : ℚ
  total_thermal_capacity : ℚ
  off_temperature_threshold_K : ℚ
  on_temperature_threshold_K : ℚ
  total_time_seconds : ℚ
  time_points : ℕ
  initial_tank_temperature_K : ℚ
  deriving DecidableEq

/-- Source `formulae.CalculateQload`:
`-(Aw*Uw*(Tamb - Tsp) + Ar*Ur*(Tamb - Tsp))`. -/
def CalculateQload (inp : SimInputs) (Tamb : ℚ) : ℚ :=
  -1 * (inp.wall_area * inp.wall_U_value * (Tamb - inp.indoor_setpoint_temperature_K)
        + inp.roof_area * inp.roof_U_value * (Tamb - inp.indoor_setpoint_temperature_K))

/-- Source `formulae.CalculateQtransfer`: `Ucond * Acond * (Tcond - Ttank)`. -/
def CalculateQtransfer (inp : SimInputs) (Ttank : ℚ) : ℚ :=
  inp.overall_heat_transfer_coefficient * inp.heat_transfer_area
    * (inp.fixed_condenser_temperature_K - Ttank)

/-- Source `formulae.CalculateQloss`: `Uloss * Atank * (Ttank - Tambient)`. -/
def CalculateQloss (inp : SimInputs) (Atank Ttank Tambient : ℚ) : ℚ :=
  inp.heat_loss_coefficient * Atank * (Ttank - Tambient)

/-- Source `formulae.vol_calc`: water mass over the density of water. -/
noncomputable def vol_calc (water_mass : ℝ) : ℝ := water_mass / 1000

/-- Source `formulae.tank_dimension`: `r = (V/(pi*RHratio))**(1/3)`,
`h = RHratio*r`, returned as the pair `(h, r)`. -/
noncomputable def tank_dimension (tank_vol RHratio : ℝ) : ℝ × ℝ :=
  let r : ℝ := (tank_vol / (Real.pi * RHratio)) ^ ((1 : ℝ) / 3)
  (RHratio * r, r)

/-- Source `formulae.tank_SA`: surface area `2*pi*r*h + 2*pi*r**2` of the
tank whose dimensions come from `tank_dimension` at the volume computed by
`vol_calc` from the water mass. -/
noncomputable def tank_SA (water_mass RHratio : ℝ) : ℝ :=
  let hr := tank_dimension (vol_calc water_mass) RHratio
  2 * Real.pi * hr.2 * hr.1 + 2 * Real.pi * hr.2 ^ 2

/-- The line `time_values = time_values * 3600` shared by the three aggregate
integrals: on a Python list this is repetition, not scaling. -/
def pyTimesSeconds (time_values : List ℚ) : List ℚ :=
  pyListMulNat time_values 3600

/-- Source `formulae.calculate_total_energy_consumption` on Python lists:
after `time_values = time_values * 3600` (list repetition), the one-based
loop accumulates `Pin_values[i] * (tv[i] - tv[i-1])` for `i` in
`range(1, len(Pin_values))`. -/
def calculate_total_energy_consumption (Pin_values time_values : List ℚ) : ℚ :=
  ((List.range' 1 (Pin_values.length - 1)).map fun i =>
    Pin_values.getD i 0
      * ((pyTimesSeconds time_values).getD i 0
          - (pyTimesSeconds time_values).getD (i - 1) 0)).sum

/-- Source `formulae.calculate_total_heat_transfer`: textually identical loop
to `calculate_total_energy_consumption`, over the heat-transfer series. -/
def calculate_total_heat_transfer (qtransfer time_values : List ℚ) : ℚ :=
  ((List.range' 1 (qtransfer.length - 1)).map fun i =>
    qtransfer.getD i 0
      * ((pyTimesSeconds time_values).getD i 0
          - (pyTimesSeconds time_values).getD (i - 1) 0)).sum

/-- Source `formulae.calculate_total_heat_loss`: textually identical loop to
`calculate_total_energy_consumption`, over the heat-loss series. -/
def calculate_total_heat_loss (heatloss time_values : List ℚ) : ℚ :=
  ((List.range' 1 (heatloss.length - 1)).map fun i =>
    heatloss.getD i 0
      * ((pyTimesSeconds time_values).getD i 0
          - (pyTimesSeconds time_values).getD (i - 1) 0)).sum

/-! ## simulation.py — the Euler integrator -/

/-- Heat-pump run state, the Python strings `'on'` / `'off'`. -/
inductive PumpStatus where
  | on : PumpStatus
  | off : PumpStatus
  deriving DecidableEq

/-- Hysteresis update in the loop body of `Simulator.euler`:
`if Ttank >= T_off: 'off' elif Ttank <= T_on: 'on' else` unchanged. -/
def update_pump_status (T_on T_off Ttank : ℚ) (s : PumpStatus) : PumpStatus :=
  if T_off ≤ Ttank then PumpStatus.off
  else if Ttank ≤ T_on then PumpStatus.on
  else s

/-- Initial mode in `Simulator.euler`:
`'on' if initial_tank_temp < T_on else 'off'`. -/
def initial_pump_status (inp : SimInputs) : PumpStatus :=
  if inp.initial_tank_temperature_K < inp.on_temperature_threshold_K
  then PumpStatus.on else PumpStatus.off

/-- Run context of one `Simulator.euler` call: the parameter store, the
ambient-temperature interpolator `interpolated_data`, the DHW flow
interpolator `DHW.get_dhw_profile()`, the DHW flag, the tank surface area
`Atank = formulae.tank_SA(inputValues, RHratio)` (its real-valued geometry is
treated separately, over ℝ), and the fitted COP coefficients. -/
structure SimCtx where
  inp : SimInputs
  amb : ℚ → ℚ
  dhwProf : ℚ → ℚ
  dhw : Bool
  Atank : ℚ
  fit_a : ℚ
  fit_b : ℚ

/-- Entry `i` of `np.linspace(0, total_time, num_points)`. -/
def timeVal (inp : SimInputs) (i : ℕ) : ℚ :=
  inp.total_time_seconds * i / ((inp.time_points : ℚ) - 1)

/-- Source `self.step_size = self.total_time / (self.num_points - 1)`. -/
def step_size (inp : SimInputs) : ℚ :=
  inp.total_time_seconds / ((inp.time_points : ℚ) - 1)

/-- All quantities computed by one iteration of the `euler` loop. -/
structure StepRecord where
  Tamb : ℚ
  QDHW : ℚ
  status : PumpStatus
  Qload : ℚ
  Qtransfer : ℚ
  Qloss : ℚ
  cop : ℚ
  Pin : ℚ
  Tnext : ℚ

/-- Body of the `euler` loop at previous temperature `Ttank`, previous
persistent pump state `s` and previous time `t` (seconds).  `T_inlet` is the
literal 300 set at the top of `euler`. -/
def eulerStep (c : SimCtx) (Ttank : ℚ) (s : PumpStatus) (t : ℚ) : StepRecord :=
  let Tamb := c.amb (t / 3600)
  let QDHW := if c.dhw then c.dhwProf (t / 3600) * 4186 * (Ttank - 300) else 0
  let s' := update_pump_status c.inp.on_temperature_threshold_K
      c.inp.off_temperature_threshold_K Ttank s
  let Qload := CalculateQload c.inp Tamb
  let Qtransfer := if s' = PumpStatus.on then CalculateQtransfer c.inp Ttank else 0
  let Qloss := CalculateQloss c.inp c.Atank Ttank Tamb
  let cop := if s' = PumpStatus.on then COP (65 + 273.15 - Tamb) c.fit_a c.fit_b else 0
  let Pin := if 0 < cop then Qtransfer / cop else 0
  let dTdt := (Qtransfer - Qload - Qloss - QDHW) / c.inp.total_thermal_capacity
  { Tamb := Tamb, QDHW := QDHW, status := s', Qload := Qload, Qtransfer := Qtransfer,
    Qloss := Qloss, cop := cop, Pin := Pin, Tnext := Ttank + step_size c.inp * dTdt }

/-- Tank temperature and persistent pump state after `i` loop iterations;
`simStep c 0` is the initial condition written into `Ttank_values[0]`. -/
def simStep (c : SimCtx) : ℕ → ℚ × PumpStatus
  | 0 => (c.inp.initial_tank_temperature_K, initial_pump_status c.inp)
  | k + 1 =>
    let p := simStep c k
    let r := eulerStep c p.1 p.2 (timeVal c.inp k)
    (r.Tnext, r.status)

/-- Record produced by loop iteration `i ≥ 1`: the loop body evaluated at the
previous step's temperature `Ttank_values[i-1]`, previous pump state, and
previous time `time_values[i-1]`. -/
def record_at (c : SimCtx) (i : ℕ) : StepRecord :=
  eulerStep c (simStep c (i - 1)).1 (simStep c (i - 1)).2 (timeVal c.inp (i - 1))

/-- The returned tank-temperature list: index 0 holds the initial condition,
index `i ≥ 1` is written by iteration `i`. -/
def Ttank_values (c : SimCtx) : List ℚ :=
  (List.range c.inp.time_points).map fun i => (simStep c i).1

/-- A recorded channel: `np.zeros(num_points)` with index `i ≥ 1` written by
iteration `i` and index 0 never written. -/
def channelOf (c : SimCtx) (f : StepRecord → ℚ) : List ℚ :=
  (List.range c.inp.time_points).map fun i =>
    if i = 0 then 0 else f (record_at c i)

/-- The `QDHW_values` array: allocated as `np.zeros(num_points)` when DHW is
enabled and never assigned anywhere in the loop body, hence identically 0. -/
def QDHW_values (c : SimCtx) : List ℚ :=
  List.replicate c.inp.time_points 0

/-- The variant-typed DHW channel of the return tuple: the numeric
`QDHW_values.tolist()` when DHW is on, else the sentinel string. -/
inductive DHWChannel where
  | series : List ℚ → DHWChannel
  | sentinel : String → DHWChannel
  deriving DecidableEq

/-- Return tuple of `Simulator.euler` (time in hours, then the recorded
channels, then the DHW channel). -/
structure EulerResult where
  time_values : List ℚ
  Ttank_values : List ℚ
  heat_load_values : List ℚ
  heat_loss_values : List ℚ
  cop_values : List ℚ
  Pin_values : List ℚ
  Qtransfer_values : List ℚ
  QDHWReturn : DHWChannel

/-- Source `Simulator.euler`: run the loop and assemble the return tuple. -/
def euler (c : SimCtx) : EulerResult where
  time_values := (List.range c.inp.time_points).map fun i => timeVal c.inp i / 3600
  Ttank_values := Ttank_values c
  heat_load_values := channelOf c fun r => r.Qload
  heat_loss_values := channelOf c fun r => r.Qloss
  cop_values := channelOf c fun r => r.cop
  Pin_values := channelOf c fun r => r.Pin
  Qtransfer_values := channelOf c fun r => r.Qtransfer
  QDHWReturn := if c.dhw then DHWChannel.series (QDHW_values c)
                else DHWChannel.sentinel "DHW Simulation Off"

/-! ## DHW.py — event discretisation -/

/-- One iteration of the event loop in `DHW.dhw_profile`:
`start_index = int(start_time / time_step)`,
`end_index = int((start_time + duration) / time_step)`,
`profile[start_index:end_index] += flow_rate`. -/
def addEvent (profile : List ℚ) (start_time duration flow_rate time_step : ℚ) : List ℚ :=
  pySliceAdd profile (pyTrunc (start_time / time_step))
    (pyTrunc ((start_time + duration) / time_step)) flow_rate

/-! ## external_data_handling.py — COP calibration -/

/-- Column `delta_T` built by `get_cop_parameters`:
`(condenserTemp - 273.15) - outdoor_temp_C` per observation. -/
def deltaTs (condenserTemp : ℚ) (obs : List (ℚ × ℚ)) : List ℚ :=
  obs.map fun o => (condenserTemp - 273.15) - o.1

/-- Source `ManufacturerCOP.get_cop_parameters`.  The entire body sits inside
`try: ... except Exception as e: print(...)`; the external `scipy`
`curve_fit` call is abstracted as a fallible fitter.  No validation of the
observations occurs before fitting; a raised exception is caught and merely
printed, so the function returns normally with the fit parameters left unset
(`none`), and a successful fit is stored (`some`). -/
def get_cop_parameters (condenserTemp : ℚ) (obs : List (ℚ × ℚ))
    (curve_fit : List ℚ → List ℚ → Except String (ℚ × ℚ)) : Option (ℚ × ℚ) :=
  match curve_fit (deltaTs condenserTemp obs) (obs.map fun o => o.2) with
  | Except.ok p => some p
  | Except.error _ => none

/-! ## Helper lemmas on list access -/

/-- Element read of a mapped range list. -/
lemma getD_range_map (f : ℕ → ℚ) {n j : ℕ} (h : j < n) :
    ((List.range n).map f).getD j 0 = f j := by
  simp [List.getD_eq_getElem?_getD, List.getElem?_map, List.getElem?_range, h]

/-- Reading inside the left part of an append. -/
lemma getD_append_left {xs ys : List ℚ} {i : ℕ} (h : i < xs.length) :
    (xs ++ ys).getD i 0 = xs.getD i 0 := by
  rw [List.getD_eq_getElem?_getD, List.getD_eq_getElem?_getD, List.getElem?_append]
  simp [h]

/-- In-range reads of a repeated Python list see the first copy: repetition
does not rescale entries, so `time_values * 3600` leaves every index below
the original length unchanged. -/
lemma getD_pyListMulNat {xs : List ℚ} {n i : ℕ} (hn : 1 ≤ n) (h : i < xs.length) :
    (pyListMulNat xs n).getD i 0 = xs.getD i 0 := by
  cases n with
  | zero => omega
  | succ m => exact getD_append_left h

/-- Element read of a replicated list. -/
lemma getD_replicate {v : ℚ} {n j : ℕ} (h : j < n) :
    (List.replicate n v).getD j 0 = v := by
  rw [List.getD_eq_getElem?_getD, List.getElem?_replicate]
  simp [h]

/-- Reads of an all-zero list give zero at every index. -/
lemma getD_replicate_zero (n j : ℕ) : (List.replicate n (0 : ℚ)).getD j 0 = 0 := by
  rw [List.getD_eq_getElem?_getD, List.getElem?_replicate]
  split <;> simp

/-- Tank-temperature channel reads evaluate the step recursion. -/
lemma Ttank_values_getD (c : SimCtx) {i : ℕ} (h : i < c.inp.time_points) :
    (euler c).Ttank_values.getD i 0 = (simStep c i).1 := by
  show (Ttank_values c).getD i 0 = _
  exact getD_range_map _ h

/-- Recorded-channel reads at a positive index evaluate the loop record. -/
lemma channelOf_getD (c : SimCtx) (f : StepRecord → ℚ) {i : ℕ}
    (h1 : 1 ≤ i) (h2 : i < c.inp.time_points) :
    (channelOf c f).getD i 0 = f (record_at c i) := by
  unfold channelOf
  rw [getD_range_map _ h2]
  simp [Nat.one_le_iff_ne_zero.mp h1]

/-- Recorded-channel reads at index 0 give the zero-initialised default. -/
lemma channelOf_getD_zero (c : SimCtx) (f : StepRecord → ℚ)
    (h : 1 ≤ c.inp.time_points) :
    (channelOf c f).getD 0 0 = 0 := by
  unfold channelOf
  rw [getD_range_map _ h]
  simp

/-- Uniformly spaced sample times: `N` points starting at `t0` with spacing
`dt` (a spec-side input family used to exercise the aggregate integrals). -/
def uniformTimes (N : ℕ) (t0 dt : ℚ) : List ℚ :=
  (List.range N).map fun i : ℕ => t0 + (i : ℚ) * dt

/-- Master evaluation of the aggregate integral on a constant value series
over uniformly spaced times: every one of the `N - 1` loop terms equals
`v * dt` (the list-repetition step leaves in-range time entries unchanged),
so the total is `v * dt * (N - 1)`. -/
lemma total_energy_replicate_uniform (v t0 dt : ℚ) {N : ℕ} (hN : 1 ≤ N) :
    calculate_total_energy_consumption (List.replicate N v) (uniformTimes N t0 dt)
      = v * dt * ((N : ℚ) - 1) := by
  have hulen : (uniformTimes N t0 dt).length = N := by
    unfold uniformTimes
    rw [List.length_map, List.length_range]
  have hmem : ∀ i ∈ List.range' 1 (N - 1),
      (List.replicate N v).getD i 0
        * ((pyTimesSeconds (uniformTimes N t0 dt)).getD i 0
            - (pyTimesSeconds (uniformTimes N t0 dt)).getD (i - 1) 0)
        = v * dt := by
    intro i hi
    rw [List.mem_range'_1] at hi
    obtain ⟨hi1, hi2⟩ := hi
    have hiN : i < N := by omega
    have hiN' : i - 1 < N := by omega
    unfold pyTimesSeconds
    rw [getD_replicate hiN,
      getD_pyListMulNat (by norm_num) (by rw [hulen]; exact hiN),
      getD_pyListMulNat (by norm_num) (by rw [hulen]; exact hiN'),
      uniformTimes, getD_range_map _ hiN, getD_range_map _ hiN']
    have hcast : ((i - 1 : ℕ) : ℚ) = (i : ℚ) - 1 := by
      push_cast [Nat.cast_sub hi1]
      ring
    rw [hcast]
    ring
  unfold calculate_total_energy_consumption
  rw [List.length_replicate, List.map_congr_left hmem]
  have hconst : (List.range' 1 (N - 1)).map (fun _ => v * dt)
      = List.replicate (List.range' 1 (N - 1)).length (v * dt) := by
    simp [List.map_const']
  rw [hconst, List.sum_replicate, nsmul_eq_mul]
  have hlen' : (List.range' 1 (N - 1)).length = N - 1 := by simp
  rw [hlen', Nat.cast_sub hN]
  push_cast
  ring

/-- Concrete parameter set used to witness the run-level claims: zero
building envelope and tank-loss coefficients, thermal capacity 1000 J/K, a
1000 s run with 2 time points, hysteresis band 310–330 K and initial tank
temperature 320 K (inside the band, so the pump starts and stays `off`). -/
def testInputs : SimInputs where
  wall_area := 0
  wall_U_value := 0
  roof_area := 0
  roof_U_value := 0
  indoor_setpoint_temperature_K := 293
  overall_heat_transfer_coefficient := 1
  heat_transfer_area := 1
  fixed_condenser_temperature_K := 338
  heat_loss_coefficient := 0
  total_thermal_capacity := 1000
  off_temperature_threshold_K := 330
  on_temperature_threshold_K := 310
  total_time_seconds := 1000
  time_points := 2
  initial_tank_temperature_K := 320

/-- Concrete run context over `testInputs`: constant 280 K ambient, constant
1 kg/s DHW flow, DHW enabled, unit tank area and COP fit `a = 3`, `b = 50`. -/
def testCtx : SimCtx where
  inp := testInputs
  amb := fun _ => 280
  dhwProf := fun _ => 1
  dhw := true
  Atank := 1
  fit_a := 3
  fit_b := 50

/-! ## Claim C1 -/

/-- C1: the claim states that the aggregate integrals convert the time series
to seconds even for the Python lists actually passed by the aggregator.  They
do not: `list * 3600` is repetition, so in-range time entries stay in hours.
On power series `[0, 2]` W and time series `[0, 1]` hours, each aggregate
returns `2 * (1 - 0) = 2`, not the `2 * (3600 - 0) = 7200` J the claim
requires. -/
theorem c1_list_units_not_converted :
    calculate_total_energy_consumption [0, 2] [0, 1] = 2
    ∧ calculate_total_heat_transfer [0, 2] [0, 1] = 2
    ∧ calculate_total_heat_loss [0, 2] [0, 1] = 2
    ∧ calculate_total_energy_consumption [0, 2] [0, 1] ≠ 2 * (1 * 3600 - 0 * 3600) := by
  have h1 : (pyTimesSeconds [0, 1]).getD 1 0 = (1 : ℚ) := by
    unfold pyTimesSeconds
    rw [getD_pyListMulNat (by norm_num) (by simp)]
    rfl
  have h0 : (pyTimesSeconds [0, 1]).getD 0 0 = (0 : ℚ) := by
    unfold pyTimesSeconds
    rw [getD_pyListMulNat (by norm_num) (by simp)]
    rfl
  rw [List.getD_eq_getElem?_getD] at h1 h0
  refine ⟨?_, ?_, ?_, ?_⟩ <;>
    simp [calculate_total_energy_consumption, calculate_total_heat_transfer,
      calculate_total_heat_loss, h1, h0, List.range']

/-! ## Claim C2 -/

/-- C2 counterexample: for the constant series `v = 1` over `N = 2` uniformly
spaced points spanning `D = 3600` seconds, the claim predicts
`v*D*(N-2)/(N-1) = 0`, but the code returns the full telescoped span: `1`
when the times are the hour-valued list `[0, 1]` (as the aggregator passes),
and `3600` when the times are passed in seconds as `[0, 3600]` — nonzero
either way. -/
theorem c2_counterexample :
    calculate_total_energy_consumption [1, 1] [0, 1] = 1
    ∧ calculate_total_energy_consumption [1, 1] [0, 3600] = 3600
    ∧ (1 : ℚ) ≠ 1 * 3600 * ((2 : ℚ) - 2) / ((2 : ℚ) - 1)
    ∧ (3600 : ℚ) ≠ 1 * 3600 * ((2 : ℚ) - 2) / ((2 : ℚ) - 1) := by
  have h1 : (pyTimesSeconds [0, 1]).getD 1 0 = (1 : ℚ) := by
    unfold pyTimesSeconds
    rw [getD_pyListMulNat (by norm_num) (by simp)]
    rfl
  have h0 : (pyTimesSeconds [0, 1]).getD 0 0 = (0 : ℚ) := by
    unfold pyTimesSeconds
    rw [getD_pyListMulNat (by norm_num) (by simp)]
    rfl
  have h1s : (pyTimesSeconds [0, 3600]).getD 1 0 = (3600 : ℚ) := by
    unfold pyTimesSeconds
    rw [getD_pyListMulNat (by norm_num) (by simp)]
    rfl
  have h0s : (pyTimesSeconds [0, 3600]).getD 0 0 = (0 : ℚ) := by
    unfold pyTimesSeconds
    rw [getD_pyListMulNat (by norm_num) (by simp)]
    rfl
  rw [List.getD_eq_getElem?_getD] at h1 h0 h1s h0s
  refine ⟨?_, ?_, ?_, ?_⟩ <;>
    simp [calculate_total_energy_consumption, h1, h0, h1s, h0s, List.range']

/-- C2 amended: for a constant value series `v` over `N ≥ 2` uniformly spaced
time points given in hours and spanning `D` seconds, the aggregate returns
`v * D / 3600`: every one of the `N - 1` intervals is counted (the sum
telescopes to `v * (t_last - t_first)`) and, the time series being a Python
list, the attempted hours-to-seconds conversion has no effect. -/
theorem c2_amended (v D : ℚ) (N : ℕ) (hN : 2 ≤ N) :
    calculate_total_energy_consumption (List.replicate N v)
      (uniformTimes N 0 (D / 3600 / ((N : ℚ) - 1))) = v * D / 3600 := by
  rw [total_energy_replicate_uniform v 0 _ (by omega)]
  have h2 : (2 : ℚ) ≤ (N : ℚ) := by exact_mod_cast hN
  have hne : ((N : ℚ) - 1) ≠ 0 := by intro h; linarith
  field_simp
  ring

/-- C2 amended, witnessed at `v = 2`, `D = 7200` s, `N = 3`. -/
theorem c2_amended_witness :
    calculate_total_energy_consumption (List.replicate 3 2)
      (uniformTimes 3 0 (7200 / 3600 / ((3 : ℚ) - 1))) = 2 * 7200 / 3600 :=
  c2_amended 2 7200 3 (by norm_num)

/-! ## Claim C3 -/

/-- C3: every list entry `Ttank_values[i]` for `1 ≤ i < numPoints` is the
previous entry plus `stepSize * (Qtransfer - Qload - Qloss - QDHW) /
thermalCapacity`, where the iteration record is evaluated at the previous
step's tank temperature, previous persistent pump state and previous time;
`stepSize = totalDuration / (numPoints - 1)` and successive `linspace` times
differ by exactly `stepSize`. -/
theorem c3_euler_update (c : SimCtx) (i : ℕ)
    (h1 : 1 ≤ i) (h2 : i < c.inp.time_points) :
    (euler c).Ttank_values.getD i 0
      = (euler c).Ttank_values.getD (i - 1) 0
        + step_size c.inp
          * (((record_at c i).Qtransfer - (record_at c i).Qload
              - (record_at c i).Qloss - (record_at c i).QDHW)
             / c.inp.total_thermal_capacity)
    ∧ record_at c i
        = eulerStep c ((simStep c (i - 1)).1) ((simStep c (i - 1)).2)
            (timeVal c.inp (i - 1))
    ∧ step_size c.inp = c.inp.total_time_seconds / ((c.inp.time_points : ℚ) - 1)
    ∧ timeVal c.inp i - timeVal c.inp (i - 1) = step_size c.inp := by
  obtain ⟨k, rfl⟩ : ∃ k, i = k + 1 := ⟨i - 1, by omega⟩
  refine ⟨?_, rfl, rfl, ?_⟩
  · rw [Ttank_values_getD c h2, Ttank_values_getD c (show k + 1 - 1 < _ by omega)]
    rfl
  · have hN : 2 ≤ c.inp.time_points := by omega
    have h2q : (2 : ℚ) ≤ (c.inp.time_points : ℚ) := by exact_mod_cast hN
    have hne : ((c.inp.time_points : ℚ) - 1) ≠ 0 := by intro h; linarith
    unfold timeVal step_size
    rw [Nat.add_sub_cancel]
    push_cast
    field_simp
    ring

/-- C3 witnessed at the concrete context `testCtx` at step `i = 1`. -/
theorem c3_witness :
    (euler testCtx).Ttank_values.getD 1 0
      = (euler testCtx).Ttank_values.getD 0 0
        + step_size testCtx.inp
          * (((record_at testCtx 1).Qtransfer - (record_at testCtx 1).Qload
              - (record_at testCtx 1).Qloss - (record_at testCtx 1).QDHW)
             / testCtx.inp.total_thermal_capacity) :=
  (c3_euler_update testCtx 1 (by norm_num) (by decide)).1

/-! ## Claim C4 -/

/-- Pump state after folding the per-step hysteresis update over a sequence
of tank temperatures. -/
def runStatus (T_on T_off : ℚ) (s : PumpStatus) (l : List ℚ) : PumpStatus :=
  l.foldl (fun s T => update_pump_status T_on T_off T s) s

/-- C4: with a proper hysteresis band `T_on < T_off`, the per-step update
maps any previous state to `off` at or above `T_off`, to `on` at or below
`T_on`, and is the identity strictly inside the band; consequently a
controller in `off` (resp. `on`) stays there along any temperature sequence
strictly between the thresholds. -/
theorem c4_hysteresis (T_on T_off : ℚ) (hlt : T_on < T_off) :
    (∀ T s, T_off ≤ T → update_pump_status T_on T_off T s = PumpStatus.off)
    ∧ (∀ T s, T ≤ T_on → update_pump_status T_on T_off T s = PumpStatus.on)
    ∧ (∀ T s, T_on < T → T < T_off → update_pump_status T_on T_off T s = s)
    ∧ (∀ l : List ℚ, (∀ T ∈ l, T_on < T ∧ T < T_off) →
        runStatus T_on T_off PumpStatus.off l = PumpStatus.off)
    ∧ (∀ l : List ℚ, (∀ T ∈ l, T_on < T ∧ T < T_off) →
        runStatus T_on T_off PumpStatus.on l = PumpStatus.on) := by
  have hid : ∀ T s, T_on < T → T < T_off → update_pump_status T_on T_off T s = s := by
    intro T s hT1 hT2
    unfold update_pump_status
    rw [if_neg (by linarith), if_neg (by linarith)]
  have hstay : ∀ (l : List ℚ) (s : PumpStatus),
      (∀ T ∈ l, T_on < T ∧ T < T_off) → runStatus T_on T_off s l = s := by
    intro l
    induction l with
    | nil => intro s _; rfl
    | cons a l ih =>
      intro s hmem
      have ha := hmem a (by simp)
      have hstep : update_pump_status T_on T_off a s = s := hid a s ha.1 ha.2
      show runStatus T_on T_off s (a :: l) = s
      unfold runStatus
      rw [List.foldl_cons, hstep]
      exact ih s fun T hT => hmem T (by simp [hT])
  refine ⟨?_, ?_, hid, fun l h => hstay l _ h, fun l h => hstay l _ h⟩
  · intro T s hT
    unfold update_pump_status
    rw [if_pos hT]
  · intro T s hT
    unfold update_pump_status
    rw [if_neg (by linarith), if_pos hT]

/-- C4 witnessed with band `(0, 1)`: inside the band the state is kept, at
the upper threshold the state switches to `off`, at the lower to `on`. -/
theorem c4_witness :
    update_pump_status 0 1 (1 / 2) PumpStatus.off = PumpStatus.off
    ∧ update_pump_status 0 1 2 PumpStatus.on = PumpStatus.off
    ∧ update_pump_status 0 1 (-1) PumpStatus.off = PumpStatus.on
    ∧ runStatus 0 1 PumpStatus.off [1 / 2, 1 / 4, 3 / 4] = PumpStatus.off :=
  ⟨(c4_hysteresis 0 1 (by norm_num)).2.2.1 (1 / 2) PumpStatus.off (by norm_num)
      (by norm_num),
   (c4_hysteresis 0 1 (by norm_num)).1 2 PumpStatus.on (by norm_num),
   (c4_hysteresis 0 1 (by norm_num)).2.1 (-1) PumpStatus.off (by norm_num),
   (c4_hysteresis 0 1 (by norm_num)).2.2.2.1 [1 / 2, 1 / 4, 3 / 4]
      (by intro T hT; fin_cases hT <;> norm_num)⟩

/-- Discrimination of the two pump states, in rewrite form. -/
lemma off_eq_on_iff : (PumpStatus.off = PumpStatus.on) ↔ False :=
  ⟨fun h => PumpStatus.noConfusion h, False.elim⟩

/-! ## Claim C5 -/

/-- C5: at the failing configuration `testCtx` (DHW enabled, constant unit
flow, tank 20 K above the inlet), iteration 1 computes the DHW heat draw
`flowRate * 4186 * (T_tank - T_inlet) = 83720` W and feeds it into the
temperature update (`Ttank_values[1] = 320 - 83720 = -83400`), yet the
returned DHW channel is the never-written zero array `[0, 0]`, not a series
holding the draw at index 1; with DHW disabled the channel is the sentinel
string. -/
theorem c5_dhw_draw_never_recorded :
    (record_at testCtx 1).QDHW
      = testCtx.dhwProf (timeVal testCtx.inp 0 / 3600) * 4186
        * ((simStep testCtx 0).1 - 300)
    ∧ (record_at testCtx 1).QDHW = 83720
    ∧ (euler testCtx).QDHWReturn = DHWChannel.series [0, 0]
    ∧ (euler testCtx).Ttank_values.getD 1 0 = -83400
    ∧ (euler { testCtx with dhw := false }).QDHWReturn
      = DHWChannel.sentinel "DHW Simulation Off" := by
  refine ⟨rfl, ?_, rfl, ?_, rfl⟩
  · norm_num [record_at, eulerStep, simStep, testCtx, testInputs, timeVal,
      initial_pump_status]
  · rw [Ttank_values_getD testCtx (by decide)]
    norm_num [simStep, eulerStep, record_at, testCtx, testInputs, timeVal,
      step_size, update_pump_status, initial_pump_status, CalculateQload,
      CalculateQtransfer, CalculateQloss, COP, off_eq_on_iff]

/-! ## Claim C6 -/

/-- C6 counterexample: `get_cop_parameters` performs no validation and
suppresses every processing failure.  With a single observation pair (fewer
than the claimed minimum of 2) and a fitter that succeeds, the function
happily returns parameters — no DataError; and with an empty observation set
and a fitter that raises, the function still returns normally (`none`, the
parameters simply stay unset) — the failure never surfaces to the caller. -/
theorem c6_counterexample :
    get_cop_parameters 338.15 [(7, 4)] (fun _ _ => Except.ok (3, 50)) = some (3, 50)
    ∧ get_cop_parameters 338.15 [] (fun _ _ => Except.error "curve_fit raised") = none :=
  ⟨rfl, rfl⟩

/-- C6 amended: for every condenser temperature, observation set and fitter
outcome, `get_cop_parameters` swallows a raised error (the blanket
`except ... print` leaves the parameters unset and returns normally) and
stores a successful fit unconditionally — no observation-count, finiteness
or zero-ΔT check ever intervenes. -/
theorem c6_failures_suppressed (condenserTemp : ℚ) (obs : List (ℚ × ℚ))
    (curve_fit : List ℚ → List ℚ → Except String (ℚ × ℚ)) :
    (∀ e, curve_fit (deltaTs condenserTemp obs) (obs.map fun o => o.2)
        = Except.error e →
      get_cop_parameters condenserTemp obs curve_fit = none)
    ∧ ∀ p, curve_fit (deltaTs condenserTemp obs) (obs.map fun o => o.2)
        = Except.ok p →
      get_cop_parameters condenserTemp obs curve_fit = some p := by
  constructor
  · intro e he
    unfold get_cop_parameters
    rw [he]
  · intro p hp
    unfold get_cop_parameters
    rw [hp]

/-- C6 amended, witnessed on an empty observation set with a raising fit. -/
theorem c6_failures_suppressed_witness :
    get_cop_parameters 300 [] (fun _ _ => Except.error "e") = none :=
  (c6_failures_suppressed 300 [] (fun _ _ => Except.error "e")).1 "e" rfl

/-! ## Claim C7 -/

/-- Loop-body gating: when the updated pump mode is `off`, the COP and
heat-transfer values of that iteration are the literal 0. -/
lemma eulerStep_off_gates (c : SimCtx) (T : ℚ) (s : PumpStatus) (t : ℚ)
    (h : (eulerStep c T s t).status = PumpStatus.off) :
    (eulerStep c T s t).cop = 0 ∧ (eulerStep c T s t).Qtransfer = 0 := by
  unfold eulerStep at h ⊢
  simp only at h ⊢
  rw [h]
  simp [off_eq_on_iff]

/-- C7: at every recorded step with pump mode `off`, the recorded COP and
heat transfer are 0, and at every recorded step the recorded power input is
`Qtransfer / COP` when `COP > 0` and 0 otherwise — the zero-COP division is
short-circuited to 0 rather than performed. -/
theorem c7_zero_cop_guard (c : SimCtx) (i : ℕ)
    (h1 : 1 ≤ i) (h2 : i < c.inp.time_points) :
    ((record_at c i).status = PumpStatus.off →
        (euler c).cop_values.getD i 0 = 0
        ∧ (euler c).Qtransfer_values.getD i 0 = 0)
    ∧ (euler c).Pin_values.getD i 0
      = (if 0 < (euler c).cop_values.getD i 0
         then (euler c).Qtransfer_values.getD i 0 / (euler c).cop_values.getD i 0
         else 0) := by
  have hcop : (euler c).cop_values.getD i 0 = (record_at c i).cop :=
    channelOf_getD c _ h1 h2
  have hq : (euler c).Qtransfer_values.getD i 0 = (record_at c i).Qtransfer :=
    channelOf_getD c _ h1 h2
  have hp : (euler c).Pin_values.getD i 0 = (record_at c i).Pin :=
    channelOf_getD c _ h1 h2
  constructor
  · intro hoff
    rw [hcop, hq]
    exact eulerStep_off_gates c _ _ _ hoff
  · rw [hp, hcop, hq]
    rfl

/-- C7 witnessed at `testCtx`, step 1, whose pump mode is `off`. -/
theorem c7_witness :
    (euler testCtx).cop_values.getD 1 0 = 0
    ∧ (euler testCtx).Qtransfer_values.getD 1 0 = 0 :=
  (c7_zero_cop_guard testCtx 1 (by norm_num) (by decide)).1 (by decide)

/-! ## Claim C8 -/

/-- C8: after a run with `numPoints ≥ 1`, index 0 of the returned
tank-temperature series is the initial tank temperature, while index 0 of
every other recorded channel — heat load, heat loss, COP, power input, heat
transfer and the DHW array — keeps its zero-initialised default: the loop
starts at index 1 and never writes index 0. -/
theorem c8_index_zero_defaults (c : SimCtx) (h : 1 ≤ c.inp.time_points) :
    (euler c).Ttank_values.getD 0 0 = c.inp.initial_tank_temperature_K
    ∧ (euler c).heat_load_values.getD 0 0 = 0
    ∧ (euler c).heat_loss_values.getD 0 0 = 0
    ∧ (euler c).cop_values.getD 0 0 = 0
    ∧ (euler c).Pin_values.getD 0 0 = 0
    ∧ (euler c).Qtransfer_values.getD 0 0 = 0
    ∧ (QDHW_values c).getD 0 0 = 0 := by
  refine ⟨?_, channelOf_getD_zero c _ h, channelOf_getD_zero c _ h,
    channelOf_getD_zero c _ h, channelOf_getD_zero c _ h,
    channelOf_getD_zero c _ h, getD_replicate_zero _ _⟩
  rw [Ttank_values_getD c h]
  rfl

/-- C8 witnessed at the concrete run context `testCtx`. -/
theorem c8_witness :
    (euler testCtx).Ttank_values.getD 0 0 = testCtx.inp.initial_tank_temperature_K
    ∧ (euler testCtx).heat_load_values.getD 0 0 = 0
    ∧ (euler testCtx).heat_loss_values.getD 0 0 = 0
    ∧ (euler testCtx).cop_values.getD 0 0 = 0
    ∧ (euler testCtx).Pin_values.getD 0 0 = 0
    ∧ (euler testCtx).Qtransfer_values.getD 0 0 = 0
    ∧ (QDHW_values testCtx).getD 0 0 = 0 :=
  c8_index_zero_defaults testCtx (by decide)

/-! ## Claim C9 -/

/-- C9: for every positive volume and height-to-radius ratio,
`tank_dimension` returns `r = (V/(pi*ratio))^(1/3)` and `h = ratio*r`, these
satisfy the exact round-trip `pi*r^2*h = V`, and `tank_SA` is the surface
area `2*pi*r*h + 2*pi*r^2` computed from the dimensions of the volume derived
from the water mass. -/
theorem c9_tank_geometry (V ratio : ℝ) (hV : 0 < V) (hr : 0 < ratio) :
    (tank_dimension V ratio).2 = (V / (Real.pi * ratio)) ^ ((1 : ℝ) / 3)
    ∧ (tank_dimension V ratio).1 = ratio * (tank_dimension V ratio).2
    ∧ Real.pi * (tank_dimension V ratio).2 ^ 2 * (tank_dimension V ratio).1 = V
    ∧ ∀ m : ℝ, tank_SA m ratio
        = 2 * Real.pi * (tank_dimension (vol_calc m) ratio).2
            * (tank_dimension (vol_calc m) ratio).1
          + 2 * Real.pi * (tank_dimension (vol_calc m) ratio).2 ^ 2 := by
  refine ⟨rfl, rfl, ?_, fun m => rfl⟩
  have hpi := Real.pi_pos
  have hx : (0 : ℝ) < V / (Real.pi * ratio) := by positivity
  have hcube : ((V / (Real.pi * ratio)) ^ ((1 : ℝ) / 3)) ^ (3 : ℕ)
      = V / (Real.pi * ratio) := by
    rw [← Real.rpow_natCast ((V / (Real.pi * ratio)) ^ ((1 : ℝ) / 3)) 3,
      ← Real.rpow_mul hx.le]
    norm_num
  show Real.pi * ((V / (Real.pi * ratio)) ^ ((1 : ℝ) / 3)) ^ 2
      * (ratio * ((V / (Real.pi * ratio)) ^ ((1 : ℝ) / 3))) = V
  have expand : Real.pi * ((V / (Real.pi * ratio)) ^ ((1 : ℝ) / 3)) ^ 2
        * (ratio * ((V / (Real.pi * ratio)) ^ ((1 : ℝ) / 3)))
      = Real.pi * ratio * ((V / (Real.pi * ratio)) ^ ((1 : ℝ) / 3)) ^ (3 : ℕ) := by
    ring
  rw [expand, hcube]
  field_simp

/-- C9 witnessed at unit volume and unit ratio. -/
theorem c9_witness :
    Real.pi * (tank_dimension 1 1).2 ^ 2 * (tank_dimension 1 1).1 = 1 :=
  (c9_tank_geometry 1 1 one_pos one_pos).2.2.1

/-! ## Claim C10 -/

/-- Normalised slice bounds never exceed the array length. -/
lemma pySliceIdx_le (n : ℕ) (i : Int) : pySliceIdx n i ≤ n := by
  unfold pySliceIdx
  split
  · omega
  · exact min_le_right _ _

/-- C10: an event whose computed start and end bin indices are both negative
with magnitude at most the array length is not dropped — its flow rate lands
on the bins `n + start .. n + end - 1` at the tail of the profile array
(Python negative indexing counts back from the end) — whereas an event whose
start index is at or beyond the array length contributes nothing. -/
theorem c10_negative_slice_wraps (profile : List ℚ) (st du fl ts : ℚ)
    (ha : pyTrunc (st / ts) < 0)
    (hb : pyTrunc ((st + du) / ts) < 0)
    (hma : 0 ≤ (profile.length : Int) + pyTrunc (st / ts))
    (hmb : 0 ≤ (profile.length : Int) + pyTrunc ((st + du) / ts)) :
    (∀ j : ℕ, j < profile.length →
      (addEvent profile st du fl ts).getD j 0
        = if ((profile.length : Int) + pyTrunc (st / ts)).toNat ≤ j
             ∧ j < ((profile.length : Int) + pyTrunc ((st + du) / ts)).toNat
          then profile.getD j 0 + fl else profile.getD j 0)
    ∧ ∀ st2 : ℚ, (profile.length : Int) ≤ pyTrunc (st2 / ts) →
        addEvent profile st2 du fl ts = profile := by
  constructor
  · intro j hj
    unfold addEvent pySliceAdd
    rw [getD_range_map _ hj]
    simp only [pySliceIdx, if_pos ha, if_pos hb]
  · intro st2 hst2
    have hn : ¬ pyTrunc (st2 / ts) < 0 := by omega
    have hstart : pySliceIdx profile.length (pyTrunc (st2 / ts)) = profile.length := by
      unfold pySliceIdx
      rw [if_neg hn]
      omega
    have hlen : (addEvent profile st2 du fl ts).length = profile.length := by
      simp [addEvent, pySliceAdd]
    apply List.ext_getElem hlen
    intro j h1 h2
    have hfalse : ¬ (pySliceIdx profile.length (pyTrunc (st2 / ts)) ≤ j
        ∧ j < pySliceIdx profile.length (pyTrunc ((st2 + du) / ts))) := by
      rw [hstart]
      rw [hlen] at h1
      omega
    have hj : j < profile.length := by rw [hlen] at h1; exact h1
    have hd : (addEvent profile st2 du fl ts).getD j 0 = profile.getD j 0 := by
      unfold addEvent pySliceAdd
      rw [getD_range_map _ hj, if_neg hfalse]
    rw [List.getD_eq_getElem _ _ h1, List.getD_eq_getElem _ _ h2] at hd
    exact hd

/-- C10 witnessed on a 4-bin profile with `start_time = -120` s,
`duration = 60` s, `time_step = 60` s: indices `-2 .. -1` land on bin 2
(counting back from the end), adding the 5 kg/s flow to the value 3. -/
theorem c10_witness :
    (addEvent [1, 2, 3, 4] (-120) 60 5 60).getD 2 0 = 8 := by
  have hstart : pyTrunc ((-120 : ℚ) / 60) = -2 := by
    have hc : ((-120 : ℚ) / 60) = ((-2 : ℤ) : ℚ) := by norm_num
    unfold pyTrunc
    rw [hc, if_pos (by norm_num), Int.ceil_intCast]
  have hend : pyTrunc (((-120 : ℚ) + 60) / 60) = -1 := by
    have hc : (((-120 : ℚ) + 60) / 60) = ((-1 : ℤ) : ℚ) := by norm_num
    unfold pyTrunc
    rw [hc, if_pos (by norm_num), Int.ceil_intCast]
  have h := (c10_negative_slice_wraps [1, 2, 3, 4] (-120) 60 5 60
    (by rw [hstart]; norm_num) (by rw [hend]; norm_num)
    (by rw [hstart]; norm_num) (by rw [hend]; norm_num)).1 2 (by norm_num)
  rw [hstart, hend] at h
  norm_num at h
  simpa using h
